import Mathlib

/-!
Verification of the FastAPI YouTube-search backend (`src/main.py`).

The development shallowly embeds the three behaviours of the program:
* the ISO-8601 duration formatter `iso8601_to_hms` (lines 70-85),
* the `/api/youtube/search` handler `youtube_search` (lines 88-143),
  modelled as a pure function over oracle upstream responses together
  with an explicit trace of the outbound calls it performs,
* the `/test` diagnostics handler `test_database` (lines 28-67),
  modelled over an oracle describing the optional database collaborator.

Machine integers do not overflow in the source (Python ints are unbounded),
so `Nat`/`Int` are used directly.
-/

namespace Backend

/-! ### Duration parser (`iso8601_to_hms`, main.py lines 70-85)

The source matches `re.match(r"PT(?:(\d+)H)?(?:(\d+)M)?(?:(\d+)S)?", duration)`.
`re.match` anchors at the start of the string only.  Each optional group is
`(\d+)X` for a letter `X`; since `\d+` can never consume the letter, greedy
matching without backtracking is exact: take the maximal digit run, then
require the letter, otherwise the whole group matches nothing.  `\d` is
modelled as an ASCII digit. -/

/-- Numeric value of a list of decimal digits, as `int` does on a digit string. -/
def digitsToNat (ds : List Char) : Nat :=
  ds.foldl (fun a c => a * 10 + (c.toNat - '0'.toNat)) 0

/-- One optional regex group `(?:(\d+)X)?` at the front of `l`: the maximal
digit run followed by the literal `c`.  Returns the captured number (or
`none` when the group matched nothing) and the remaining input. -/
def matchGroup (c : Char) (l : List Char) : Option Nat × List Char :=
  let ds := l.takeWhile Char.isDigit
  match l.dropWhile Char.isDigit with
  | x :: rest => if !ds.isEmpty && x == c then (some (digitsToNat ds), rest) else (none, l)
  | [] => (none, l)

/-- Python truthiness of a regex match object for
`PT(?:(\d+)H)?(?:(\d+)M)?(?:(\d+)S)?` under `re.match`: the string must
begin with the literal `PT` (everything after that is optional). -/
def beginsPT : List Char → Bool
  | p :: t :: _ => p == 'P' && t == 'T'
  | _ => false

/-- The anchored match of `PT(?:(\d+)H)?(?:(\d+)M)?(?:(\d+)S)?` with the
`int(m.group(i) or 0)` defaulting from main.py lines 76-78 applied: `none`
exactly when the regex does not match, otherwise the three component values
with absent groups read as `0`.  Trailing unmatched input is discarded, as
`re.match` does. -/
def parsePT (l : List Char) : Option (Nat × Nat × Nat) :=
  match l with
  | p :: t :: rest =>
    if p == 'P' && t == 'T' then
      let (h, r1) := matchGroup 'H' rest
      let (mi, r2) := matchGroup 'M' r1
      let (s, _) := matchGroup 'S' r2
      some (h.getD 0, mi.getD 0, s.getD 0)
    else none
  | _ => none

/-- Python `f"{n:02d}"`: decimal rendering left-padded with `0` to width 2. -/
def pad2 (n : Nat) : String :=
  if n < 10 then "0" ++ toString n else toString n

/-- `iso8601_to_hms` from main.py lines 70-85. -/
def iso8601_to_hms (duration : String) : String :=
  match parsePT duration.data with
  | none => "0:00"
  | some (h, mi, s) =>
    let total := h * 3600 + mi * 60 + s
    let hh := total / 3600
    let mm := total % 3600 / 60
    let ss := total % 60
    if hh ≠ 0 then
      toString hh ++ ":" ++ pad2 mm ++ ":" ++ pad2 ss
    else
      toString mm ++ ":" ++ pad2 ss

/-- Written from the spec's words (§4.1): from `total` seconds, recompute
normalized `hh, mm, ss`; if `hh > 0` format `H:MM:SS` (hours unpadded,
minutes/seconds zero-padded to two digits), otherwise `M:SS` (minutes
unpadded, seconds zero-padded). -/
def specFormatHMS (total : Nat) : String :=
  let hh := total / 3600
  let mm := total % 3600 / 60
  let ss := total % 60
  if hh > 0 then
    toString hh ++ ":" ++ pad2 mm ++ ":" ++ pad2 ss
  else
    toString mm ++ ":" ++ pad2 ss

/-! ### Search orchestrator (`youtube_search`, main.py lines 88-143)

The handler is embedded as a pure function over the environment and the two
upstream responses (oracles for what `requests.get` would return), paired
with the ordered trace of outbound calls actually issued. -/

/-- Python truthiness of `os.getenv` results: `None` and `""` are falsy. -/
def strTruthy : Option String → Bool
  | some s => !s.isEmpty
  | none => false

/-- Python `a or b` on optional strings. -/
def pyOrStr (a b : Option String) : Option String :=
  if strTruthy a then a else b

/-- The environment variables the handler reads. -/
structure Env where
  yt_api_key : Option String
  youtube_api_key : Option String

/-- main.py line 90: `os.getenv("YT_API_KEY") or os.getenv("YOUTUBE_API_KEY")`. -/
def getApiKey (e : Env) : Option String :=
  pyOrStr e.yt_api_key e.youtube_api_key

/-- One entry of the search response's `items` array.  `videoId` collapses
`item.get("id", {}).get("videoId")`: an absent `id` object, an absent
`videoId` key and JSON `null` are all `none`. -/
structure SearchItem where
  videoId : Option String
deriving DecidableEq

/-- main.py line 108: the video ids in search order, skipping entries whose
`videoId` is falsy (absent, `null`, or the empty string). -/
def extractIds (items : List SearchItem) : List String :=
  items.filterMap fun it =>
    match it.videoId with
    | some v => if v.isEmpty then none else some v
    | none => none

/-- A JSON thumbnail object: the `url` field the code reads, plus the count
of its other keys so that Python dict truthiness (non-emptiness) is
representable. -/
structure ThumbDict where
  url : Option String
  extraKeys : Nat
deriving DecidableEq

/-- Python truthiness of a thumbnail dict: it is non-empty. -/
def ThumbDict.truthy (t : ThumbDict) : Bool :=
  t.url.isSome || t.extraKeys != 0

/-- The `thumbnails` object of a snippet; every resolution key optional. -/
structure Thumbnails where
  maxres : Option ThumbDict
  high : Option ThumbDict
  medium : Option ThumbDict
  default : Option ThumbDict
deriving DecidableEq

/-- Python `a or b` where `a` is `thumbs.get(key)` (absent key is `None`,
a present empty dict is falsy). -/
def pyOrThumb (a : Option ThumbDict) (b : ThumbDict) : ThumbDict :=
  match a with
  | some t => if t.truthy then t else b
  | none => b

/-- main.py line 131: `thumbs.get("maxres") or thumbs.get("high") or
thumbs.get("medium") or thumbs.get("default") or {}`. -/
def bestThumb (th : Thumbnails) : ThumbDict :=
  pyOrThumb th.maxres (pyOrThumb th.high (pyOrThumb th.medium (pyOrThumb th.default ⟨none, 0⟩)))

/-- Availability of an optional thumbnail entry in the sense of the `or`
chain: the key is present and its dict is truthy (non-empty). -/
def thumbAvail : Option ThumbDict → Bool
  | some t => t.truthy
  | none => false

/-- One entry of the detail-lookup response's `items` array, collapsed to
the fields the code reads (`.get` on absent nested objects yields `none`
fields and all-`none` thumbnails). -/
structure DetailItem where
  id : Option String
  title : Option String
  channelTitle : Option String
  publishedAt : Option String
  thumbnails : Thumbnails
  duration : Option String
  viewCount : Option String
deriving DecidableEq

/-- The per-video record the handler returns (main.py lines 132-140). -/
structure VideoSummary where
  id : Option String
  title : Option String
  channel : Option String
  publishedAt : Option String
  thumb : Option String
  duration : String
  views : Option String
deriving DecidableEq

/-- main.py lines 132-140: the record stored in `details[vid]`. -/
def mkSummary (it : DetailItem) : VideoSummary where
  id := it.id
  title := it.title
  channel := it.channelTitle
  publishedAt := it.publishedAt
  thumb := (bestThumb it.thumbnails).url
  duration := iso8601_to_hms (it.duration.getD "PT0S")
  views := it.viewCount

/-- main.py lines 124-140: the `details` dict, as the insertion-ordered
association list of `(it.get("id"), record)` pairs; on lookup the last
binding of a key wins, as Python dict assignment overwrites. -/
def buildDetails (items : List DetailItem) : List (Option String × VideoSummary) :=
  items.map fun it => (it.id, mkSummary it)

/-- Python `i in details` for a string id `i`. -/
def containsKey (m : List (Option String × VideoSummary)) (i : String) : Bool :=
  m.any fun p => p.1 == some i

/-- Python `details[i]` for a string id `i`: the last binding wins. -/
def lookupDetail (m : List (Option String × VideoSummary)) (i : String) : Option VideoSummary :=
  (m.reverse.find? fun p => p.1 == some i).map Prod.snd

/-- main.py line 142: `[details[i] for i in ids if i in details]`. -/
def assembleItems (ids : List String) (vItems : List DetailItem) : List VideoSummary :=
  ids.filterMap fun i => lookupDetail (buildDetails vItems) i

/-- The search call's HTTP response, with `.json()["items"]` already
destructured (`s_data.get("items", [])`: absent key is the empty list). -/
structure SearchResponse where
  status_code : Nat
  text : String
  items : List SearchItem
deriving DecidableEq

/-- The detail-lookup call's HTTP response, likewise destructured. -/
structure VideosResponse where
  status_code : Nat
  text : String
  items : List DetailItem
deriving DecidableEq

/-- An outbound `requests.get`, with the request data the handler fills in. -/
inductive Call where
  | search (q : String) (maxResults : Int)
  | videos (idsJoined : String)
deriving DecidableEq

/-- A raised `HTTPException`. -/
structure HttpError where
  status_code : Nat
  detail : String
deriving DecidableEq

/-- The success body `{"query": q, "items": items}`. -/
structure SearchResult where
  query : String
  items : List VideoSummary
deriving DecidableEq

/-- main.py lines 88-143: the `/api/youtube/search` handler body over oracle
upstream responses, returning the outcome and the ordered trace of outbound
calls it made. -/
def youtube_search (env : Env) (sResp : SearchResponse) (vResp : VideosResponse)
    (q : String) (maxResults : Int) :
    Except HttpError SearchResult × List Call :=
  let api_key := getApiKey env
  if !strTruthy api_key then
    (.error ⟨500, "YouTube API key not configured"⟩, [])
  else if sResp.status_code ≠ 200 then
    (.error ⟨sResp.status_code, sResp.text⟩, [.search q maxResults])
  else
    let ids := extractIds sResp.items
    if ids.isEmpty then
      (.ok ⟨q, []⟩, [.search q maxResults])
    else if vResp.status_code ≠ 200 then
      (.error ⟨vResp.status_code, vResp.text⟩,
        [.search q maxResults, .videos (String.intercalate "," ids)])
    else
      (.ok ⟨q, assembleItems ids vResp.items⟩,
        [.search q maxResults, .videos (String.intercalate "," ids)])

/-- The raw query parameters of a request (`none` = omitted). -/
structure Request where
  q : Option String
  maxResults : Option Int
deriving DecidableEq

/-- An error surfaced to the caller: either the framework's parameter
rejection or a raised `HTTPException`. -/
inductive ApiError where
  | invalidArgument (status_code : Nat)
  | http (e : HttpError)
deriving DecidableEq

/-- Modelled from the spec: the validation of the parameters declared at
main.py line 89 (`q: str = Query(..., min_length=1)`,
`maxResults: int = Query(12, ge=1, le=25)`) is performed by the FastAPI
framework, whose code is not part of this repository.  Per the spec
(§4.2 step 1, §7) a request with a missing or empty `q`, or with
`maxResults` outside `[1, 25]`, is rejected with an `InvalidArgument`
client error before the handler body runs; an omitted `maxResults`
defaults to `12`. -/
def validateParams (r : Request) : Except Unit (String × Int) :=
  match r.q with
  | none => .error ()
  | some q =>
    if q.length < 1 then .error ()
    else
      let mr := r.maxResults.getD 12
      if 1 ≤ mr ∧ mr ≤ 25 then .ok (q, mr) else .error ()

/-- The full `/api/youtube/search` endpoint: framework validation (modelled
from the spec, surfaced as a 400 `InvalidArgument`) followed by the handler
body; the second component is the trace of outbound calls. -/
def searchEndpoint (env : Env) (sResp : SearchResponse) (vResp : VideosResponse)
    (r : Request) : Except ApiError SearchResult × List Call :=
  match validateParams r with
  | .error _ => (.error (.invalidArgument 400), [])
  | .ok (q, mr) =>
    match youtube_search env sResp vResp q mr with
    | (.ok res, calls) => (.ok res, calls)
    | (.error e, calls) => (.error (.http e), calls)

/-! ### Diagnostics endpoint (`test_database`, main.py lines 28-67)

The optional `database` collaborator is an oracle input describing what the
handler can observe of it; the handler itself contains no `raise`, so its
outcome is a response body for every oracle state. -/

/-- The imported `db` handle, as the handler observes it: the optional
`name` attribute and the outcome of the metadata call
`db.list_collection_names()` (collection names, or the rendered message of
the exception it raised). -/
structure Db where
  name : Option String
  collections : Except String (List String)

/-- Outcome of `from database import db` (main.py line 41): an
`ImportError`, some other exception (with its rendered message), or a
successful import whose `db` may be `None`. -/
inductive ImportOutcome where
  | importError
  | otherError (msg : String)
  | imported (db : Option Db)

/-- The response body of `/test` (main.py lines 31-38 with the subsequent
mutations applied). -/
structure TestResponse where
  backend : String
  database : String
  database_url : String
  database_name : String
  connection_status : String
  collections : List String
deriving DecidableEq

/-- main.py lines 28-67: the diagnostics handler.  Every branch of the
source's try/except ladder renders into the `database` status string;
`database_url` and `database_name` are overwritten unconditionally at lines
63-65 from the presence of the environment variables. -/
def test_database (imp : ImportOutcome) (dbUrlSet dbNameSet : Bool) : TestResponse :=
  let database :=
    match imp with
    | .importError => "❌ Database module not found (run enable-database first)"
    | .otherError msg => "❌ Error: " ++ msg.take 50
    | .imported none => "⚠️  Available but not initialized"
    | .imported (some db) =>
      match db.collections with
      | .ok _ => "✅ Connected & Working"
      | .error msg => "⚠️  Connected but Error: " ++ msg.take 50
  let connection_status :=
    match imp with
    | .imported (some _) => "Connected"
    | _ => "Not Connected"
  let collections :=
    match imp with
    | .imported (some db) =>
      match db.collections with
      | .ok cols => cols.take 10
      | .error _ => []
    | _ => []
  { backend := "✅ Running"
    database := database
    database_url := if dbUrlSet then "✅ Set" else "❌ Not Set"
    database_name := if dbNameSet then "✅ Set" else "❌ Not Set"
    connection_status := connection_status
    collections := collections }

/-- The `/test` endpoint surfaced over HTTP: the handler body contains no
`raise`, so for every observable state of the data store it answers with a
success body, never an `HTTPException`. -/
def testEndpoint (imp : ImportOutcome) (dbUrlSet dbNameSet : Bool) :
    Except HttpError TestResponse :=
  .ok (test_database imp dbUrlSet dbNameSet)

/-- C2: for every duration string matching the `PT…` pattern (components
parsed with absent ones defaulting to `0`), `iso8601_to_hms` returns exactly
the spec's format of `h*3600 + mi*60 + s` normalized seconds; in particular
`PT1H2M3S ↦ "1:02:03"`, `PT5M9S ↦ "5:09"`, `PT90M ↦ "1:30:00"`. -/
theorem iso8601_matches_spec_format :
    (∀ (d : String) (h mi s : Nat), parsePT d.data = some (h, mi, s) →
      iso8601_to_hms d = specFormatHMS (h * 3600 + mi * 60 + s)) ∧
      iso8601_to_hms "PT1H2M3S" = "1:02:03" ∧
      iso8601_to_hms "PT5M9S" = "5:09" ∧
      iso8601_to_hms "PT90M" = "1:30:00" := by
  refine ⟨fun d h mi s hp => ?_, by decide, by decide, by decide⟩
  unfold iso8601_to_hms specFormatHMS
  rw [hp]
  simp only [Nat.pos_iff_ne_zero]

/-- C2 witness: the universally quantified conjunct applied at `"PT1H2M3S"`,
whose parse is `some (1, 2, 3)`. -/
theorem iso8601_matches_spec_format_witness :
    iso8601_to_hms "PT1H2M3S" = specFormatHMS (1 * 3600 + 2 * 60 + 3) :=
  iso8601_matches_spec_format.1 "PT1H2M3S" 1 2 3 (by decide)

/-- C3: `iso8601_to_hms` is a total function on strings, returning the
literal fallback `"0:00"` on every input the pattern does not match; in
particular `"garbage" ↦ "0:00"` and `"PT" ↦ "0:00"`. -/
theorem iso8601_total_with_fallback :
    (∀ d : String, parsePT d.data = none → iso8601_to_hms d = "0:00") ∧
      iso8601_to_hms "garbage" = "0:00" ∧
      iso8601_to_hms "PT" = "0:00" := by
  refine ⟨fun d hd => ?_, by decide, by decide⟩
  unfold iso8601_to_hms
  rw [hd]

/-- C3 witness: the universally quantified conjunct applied at `"garbage"`,
which does not match the pattern. -/
theorem iso8601_total_with_fallback_witness :
    iso8601_to_hms "garbage" = "0:00" :=
  iso8601_total_with_fallback.1 "garbage" (by decide)

/-- C10: the regex match is anchored only at the start, so the parse fails
(and the `"0:00"` fallback fires) exactly when the input does not begin with
the two characters `PT`; characters after the matched prefix are ignored:
`"PT1H2M3Sjunk" ↦ "1:02:03"`, and `"PTjunk"` parses as `some (0, 0, 0)`
(all groups absent), yielding `"0:00"` through normal formatting. -/
theorem iso8601_anchored_at_start_only :
    (∀ l : List Char, parsePT l = none ↔ l.take 2 ≠ ['P', 'T']) ∧
      iso8601_to_hms "PT1H2M3Sjunk" = "1:02:03" ∧
      parsePT "PTjunk".data = some (0, 0, 0) ∧
      iso8601_to_hms "PTjunk" = "0:00" := by
  refine ⟨fun l => ?_, by decide, by decide, by decide⟩
  match l with
  | [] => simp [parsePT]
  | [p] => simp [parsePT]
  | p :: t :: rest =>
    by_cases hpt : (p == 'P' && t == 'T') = true
    · rcases hH : matchGroup 'H' rest with ⟨oh, r1⟩
      rcases hM : matchGroup 'M' r1 with ⟨om, r2⟩
      rcases hS : matchGroup 'S' r2 with ⟨os, r3⟩
      simp only [Bool.and_eq_true, beq_iff_eq] at hpt
      simp [parsePT, hpt, hH, hM, hS]
    · simp only [Bool.and_eq_true, beq_iff_eq, not_and_or] at hpt
      rcases hpt with hp1 | ht1
      · simp [parsePT, hp1]
      · simp [parsePT, ht1]

/-- C10 witness: the iff applied at the character list of `"garbage"`. -/
theorem iso8601_anchored_at_start_only_witness :
    parsePT "garbage".data = none :=
  (iso8601_anchored_at_start_only.1 "garbage".data).mpr (by decide)

/-- Any record found in the `details` map under a string key `i` carries
`id = some i`: the map is keyed by the records' own ids. -/
theorem lookupDetail_id (vItems : List DetailItem) (i : String) (summ : VideoSummary)
    (h : lookupDetail (buildDetails vItems) i = some summ) : summ.id = some i := by
  unfold lookupDetail at h
  rcases hf : (buildDetails vItems).reverse.find? (fun p => p.1 == some i) with _ | p
  · rw [hf] at h; simp at h
  · rw [hf] at h
    simp only [Option.map_some'] at h
    have hpred := List.find?_some hf
    have hmem : p ∈ (buildDetails vItems).reverse := List.mem_of_find?_eq_some hf
    rw [List.mem_reverse] at hmem
    unfold buildDetails at hmem
    rw [List.mem_map] at hmem
    obtain ⟨it, _, rfl⟩ := hmem
    simp only [beq_iff_eq] at hpred
    simp only [Option.some.injEq] at h
    rw [← h]
    simpa [mkSummary] using hpred

/-- `details[i]` misses exactly when no record of the detail response has
id `i`. -/
theorem lookupDetail_none_iff (vItems : List DetailItem) (i : String) :
    lookupDetail (buildDetails vItems) i = none ↔
      (vItems.any fun it => it.id == some i) = false := by
  unfold lookupDetail buildDetails
  simp [Option.map_eq_none', List.find?_eq_none, List.any_eq_false]

/-- The comprehension `[details[i] for i in ids if i in details]` emits, in
the order of `ids`, exactly the records for ids present in the detail
response. -/
theorem assembleItems_ids (ids : List String) (vItems : List DetailItem) :
    (assembleItems ids vItems).map VideoSummary.id =
      ((ids.filter fun i => vItems.any fun it => it.id == some i).map some) := by
  induction ids with
  | nil => rfl
  | cons i ids ih =>
    by_cases hany : (vItems.any fun it => it.id == some i) = true
    · rcases hl : lookupDetail (buildDetails vItems) i with _ | summ
      · rw [lookupDetail_none_iff] at hl
        rw [hl] at hany
        exact absurd hany (by simp)
      · have hid : summ.id = some i := lookupDetail_id _ _ _ hl
        simp only [assembleItems, List.filterMap_cons, hl, List.filter_cons, hany,
          if_true, List.map_cons, hid]
        exact congrArg _ ih
    · have hl : lookupDetail (buildDetails vItems) i = none :=
        (lookupDetail_none_iff vItems i).mpr (by simpa using hany)
      simp only [assembleItems, List.filterMap_cons, hl, List.filter_cons, hany,
        if_false, Bool.false_eq_true]
      exact ih

/-- C1: whenever the handler succeeds, the returned items are the records
for the search-order video ids, in that same relative order, with exactly
those ids dropped that no record of the detail-lookup response carries. -/
theorem search_preserves_id_order
    (env : Env) (sResp : SearchResponse) (vResp : VideosResponse)
    (q : String) (mr : Int) (res : SearchResult) (calls : List Call)
    (hok : youtube_search env sResp vResp q mr = (.ok res, calls)) :
    res.items.map VideoSummary.id =
      ((extractIds sResp.items).filter fun i =>
        vResp.items.any fun it => it.id == some i).map some := by
  simp only [youtube_search] at hok
  by_cases hkey : strTruthy (getApiKey env) = true
  · by_cases h200 : sResp.status_code = 200
    · by_cases hemp : (extractIds sResp.items).isEmpty = true
      · simp [hkey, h200, hemp] at hok
        obtain ⟨rfl, rfl⟩ := hok
        rw [List.isEmpty_iff] at hemp
        simp [hemp]
      · by_cases v200 : vResp.status_code = 200
        · simp [hkey, h200, hemp, v200] at hok
          obtain ⟨rfl, rfl⟩ := hok
          exact assembleItems_ids _ _
        · simp [hkey, h200, hemp, v200] at hok
    · simp [hkey, h200] at hok
  · simp [hkey] at hok

/-- C1 witness: search returns ids `a, b`; the detail lookup returns only a
record for `b`, so the output is exactly the `b` record. -/
theorem search_preserves_id_order_witness :
    (SearchResult.mk "q" [⟨some "b", none, none, none, none, "0:00", none⟩]).items.map
        VideoSummary.id =
      ((extractIds [⟨some "a"⟩, ⟨some "b"⟩]).filter fun i =>
        [DetailItem.mk (some "b") none none none ⟨none, none, none, none⟩ none none].any
          fun it => it.id == some i).map some :=
  search_preserves_id_order ⟨some "k", none⟩ ⟨200, "", [⟨some "a"⟩, ⟨some "b"⟩]⟩
    ⟨200, "", [⟨some "b", none, none, none, ⟨none, none, none, none⟩, none, none⟩]⟩
    "q" 12 ⟨"q", [⟨some "b", none, none, none, none, "0:00", none⟩]⟩
    [.search "q" 12, .videos "a,b"] rfl

/-- C4: a non-200 response from either outbound call is propagated verbatim:
the handler fails with the upstream's own status code and body, each
outbound call having been issued exactly once (no retry, no
transformation). -/
theorem upstream_errors_propagated_verbatim :
    (∀ (env : Env) (sResp : SearchResponse) (vResp : VideosResponse) (q : String) (mr : Int),
      strTruthy (getApiKey env) = true → sResp.status_code ≠ 200 →
      youtube_search env sResp vResp q mr =
        (.error ⟨sResp.status_code, sResp.text⟩, [.search q mr])) ∧
    (∀ (env : Env) (sResp : SearchResponse) (vResp : VideosResponse) (q : String) (mr : Int),
      strTruthy (getApiKey env) = true → sResp.status_code = 200 →
      (extractIds sResp.items).isEmpty = false → vResp.status_code ≠ 200 →
      youtube_search env sResp vResp q mr =
        (.error ⟨vResp.status_code, vResp.text⟩,
          [.search q mr, .videos (String.intercalate "," (extractIds sResp.items))])) := by
  constructor
  · intro env s v q mr hkey hs
    simp [youtube_search, hkey, hs]
  · intro env s v q mr hkey hs hemp hv
    simp [youtube_search, hkey, hs, hemp, hv]

/-- C4 witness: a 403 search response with body `"quota"` is forwarded as a
403 error with detail `"quota"` after a single search call. -/
theorem upstream_errors_propagated_verbatim_witness :
    youtube_search ⟨some "k", none⟩ ⟨403, "quota", []⟩ ⟨200, "", []⟩ "cats" 12 =
      (.error ⟨403, "quota"⟩, [.search "cats" 12]) :=
  upstream_errors_propagated_verbatim.1 ⟨some "k", none⟩ ⟨403, "quota", []⟩ ⟨200, "", []⟩
    "cats" 12 (by decide) (by decide)

/-- C5: when neither environment variable holds a non-empty key — the
configured-credential test is exactly the truthiness of
`YT_API_KEY or YOUTUBE_API_KEY` — the handler fails with the 500
configuration error and an empty call trace: no outbound call is
attempted. -/
theorem missing_credential_rejected_before_calls :
    (∀ env : Env, strTruthy (getApiKey env) =
        (strTruthy env.yt_api_key || strTruthy env.youtube_api_key)) ∧
    (∀ (env : Env) (sResp : SearchResponse) (vResp : VideosResponse) (q : String) (mr : Int),
      strTruthy (getApiKey env) = false →
      youtube_search env sResp vResp q mr =
        (.error ⟨500, "YouTube API key not configured"⟩, [])) := by
  constructor
  · intro env
    unfold getApiKey pyOrStr
    by_cases h : strTruthy env.yt_api_key = true
    · simp [h]
    · simp [Bool.not_eq_true] at h
      simp [h]
  · intro env s v q mr hkey
    simp [youtube_search, hkey]

/-- C5 witness: with `YT_API_KEY` unset and `YOUTUBE_API_KEY` set to the
empty string, the handler returns the 500 configuration error and makes no
outbound call. -/
theorem missing_credential_rejected_before_calls_witness :
    youtube_search ⟨none, some ""⟩ ⟨200, "", []⟩ ⟨200, "", []⟩ "cats" 12 =
      (.error ⟨500, "YouTube API key not configured"⟩, []) :=
  missing_credential_rejected_before_calls.2 ⟨none, some ""⟩ ⟨200, "", []⟩ ⟨200, "", []⟩
    "cats" 12 (by decide)

/-- C6: when the search response yields zero usable video ids, the handler
returns `{query, items: []}` and its call trace is just the search call:
the detail-lookup call is never made. -/
theorem empty_ids_short_circuits :
    ∀ (env : Env) (sResp : SearchResponse) (vResp : VideosResponse) (q : String) (mr : Int),
      strTruthy (getApiKey env) = true → sResp.status_code = 200 →
      extractIds sResp.items = [] →
      youtube_search env sResp vResp q mr = (.ok ⟨q, []⟩, [.search q mr]) := by
  intro env s v q mr hkey hs hids
  simp [youtube_search, hkey, hs, hids]

/-- C6 witness: a 200 search response whose entries all lack a usable id
(one missing, one empty string) short-circuits to the empty result with a
single-call trace. -/
theorem empty_ids_short_circuits_witness :
    youtube_search ⟨some "k", none⟩ ⟨200, "", [⟨none⟩, ⟨some ""⟩]⟩ ⟨200, "", []⟩ "cats" 12 =
      (.ok ⟨"cats", []⟩, [.search "cats" 12]) :=
  empty_ids_short_circuits ⟨some "k", none⟩ ⟨200, "", [⟨none⟩, ⟨some ""⟩]⟩ ⟨200, "", []⟩
    "cats" 12 (by decide) (by decide) (by decide)

/-- C7: a request with an empty query or with `maxResults` outside `[1, 25]`
is rejected with the 400 `InvalidArgument` error and an empty call trace —
before any outbound call; an omitted `maxResults` validates to the default
`12`. -/
theorem invalid_params_rejected_before_calls :
    (∀ (env : Env) (sResp : SearchResponse) (vResp : VideosResponse) (r : Request),
      (r.q = some "" ∨ ∃ mr, r.maxResults = some mr ∧ (mr < 1 ∨ 25 < mr)) →
      searchEndpoint env sResp vResp r = (.error (.invalidArgument 400), [])) ∧
    (∀ q : String, 1 ≤ q.length → validateParams ⟨some q, none⟩ = .ok (q, 12)) := by
  constructor
  · intro env s v r hbad
    have hval : validateParams r = .error () := by
      obtain ⟨rq, rmr⟩ := r
      rcases hbad with hq | ⟨mr, hmr, hout⟩
      · simp only at hq
        subst hq
        simp [validateParams]
      · simp only at hmr
        subst hmr
        rcases rq with _ | qs
        · rfl
        · by_cases hlen : qs.length < 1
          · simp [validateParams, hlen]
          · have hrange : ¬ (1 ≤ mr ∧ mr ≤ 25) := by omega
            simp [validateParams, hlen, hrange]
    simp [searchEndpoint, hval]
  · intro q hq
    have hlen : ¬ q.length < 1 := by omega
    have hrange : (1 : Int) ≤ 12 ∧ (12 : Int) ≤ 25 := by norm_num
    simp [validateParams, hlen, hrange]

/-- C7 witness: `maxResults = 0` is rejected with the 400 error and no
outbound call, whatever the upstream would have answered. -/
theorem invalid_params_rejected_before_calls_witness :
    searchEndpoint ⟨some "k", none⟩ ⟨200, "", []⟩ ⟨200, "", []⟩ ⟨some "cats", some 0⟩ =
      (.error (.invalidArgument 400), []) :=
  invalid_params_rejected_before_calls.1 ⟨some "k", none⟩ ⟨200, "", []⟩ ⟨200, "", []⟩
    ⟨some "cats", some 0⟩ (Or.inr ⟨0, rfl, Or.inl (by norm_num)⟩)

/-- C8: each summary's thumbnail is chosen by descending preference
`maxres > high > medium > default`, the first available entry winning; in
particular with only `high` and `default` available, `high` is chosen. -/
theorem thumbnail_preference_order :
    (∀ (it : DetailItem) (t : ThumbDict),
      it.thumbnails.maxres = some t → t.truthy = true →
      (mkSummary it).thumb = t.url) ∧
    (∀ (it : DetailItem) (t : ThumbDict),
      thumbAvail it.thumbnails.maxres = false →
      it.thumbnails.high = some t → t.truthy = true →
      (mkSummary it).thumb = t.url) ∧
    (∀ (it : DetailItem) (t : ThumbDict),
      thumbAvail it.thumbnails.maxres = false → thumbAvail it.thumbnails.high = false →
      it.thumbnails.medium = some t → t.truthy = true →
      (mkSummary it).thumb = t.url) ∧
    (∀ (it : DetailItem) (t : ThumbDict),
      thumbAvail it.thumbnails.maxres = false → thumbAvail it.thumbnails.high = false →
      thumbAvail it.thumbnails.medium = false →
      it.thumbnails.default = some t → t.truthy = true →
      (mkSummary it).thumb = t.url) ∧
    (∀ u1 u2 : String,
      (mkSummary ⟨some "v", none, none, none,
          ⟨none, some ⟨some u1, 0⟩, none, some ⟨some u2, 0⟩⟩, none, none⟩).thumb = some u1) := by
  refine ⟨?_, ?_, ?_, ?_, ?_⟩
  · intro it t hmx ht
    simp [mkSummary, bestThumb, hmx, pyOrThumb, ht]
  · intro it t hmx hh ht
    rcases hc : it.thumbnails.maxres with _ | t0
    · simp [mkSummary, bestThumb, hc, hh, pyOrThumb, ht]
    · rw [hc] at hmx
      simp only [thumbAvail] at hmx
      simp [mkSummary, bestThumb, hc, hh, pyOrThumb, hmx, ht]
  · intro it t hmx hh ht
    rcases hc : it.thumbnails.maxres with _ | t0 <;>
      rcases hc2 : it.thumbnails.high with _ | t1 <;>
      [skip; rw [hc2] at hh; rw [hc] at hmx; (rw [hc] at hmx; rw [hc2] at hh)] <;>
      simp only [thumbAvail] at hmx hh <;>
      simp [mkSummary, bestThumb, hc, hc2, ht, pyOrThumb, hmx, hh] <;>
      intro htr <;> simp [htr]
  · intro it t hmx hh hmd ht
    rcases hc : it.thumbnails.maxres with _ | t0 <;> rw [hc] at hmx <;>
      rcases hc2 : it.thumbnails.high with _ | t1 <;> rw [hc2] at hh <;>
      rcases hc3 : it.thumbnails.medium with _ | t2 <;> rw [hc3] at hmd <;>
      simp only [thumbAvail] at hmx hh hmd <;>
      simp [mkSummary, bestThumb, hc, hc2, hc3, ht, pyOrThumb, hmx, hh, hmd] <;>
      intro htr <;> simp [htr]
  · intro u1 u2
    simp [mkSummary, bestThumb, pyOrThumb, ThumbDict.truthy]

/-- C8 witness: the high-over-default conjunct applied at an item carrying
only `high` and `default` thumbnails. -/
theorem thumbnail_preference_order_witness :
    (mkSummary ⟨some "v", none, none, none,
        ⟨none, some ⟨some "hi", 0⟩, none, some ⟨some "df", 0⟩⟩, none, none⟩).thumb =
      some "hi" :=
  thumbnail_preference_order.2.1
    ⟨some "v", none, none, none,
      ⟨none, some ⟨some "hi", 0⟩, none, some ⟨some "df", 0⟩⟩, none, none⟩
    ⟨some "hi", 0⟩ (by decide) rfl (by decide)

/-- C9: the diagnostics endpoint answers with a success body for every
state of the data store; each failure branch (module not importable, import
raising, handle uninitialized, metadata call raising) is rendered as its
descriptive status string, and a metadata-call failure still reports a
connected handle with the error message truncated to 50 characters. -/
theorem diagnostics_never_fails :
    (∀ (imp : ImportOutcome) (u n : Bool),
      testEndpoint imp u n = .ok (test_database imp u n)) ∧
    (∀ u n : Bool, (test_database .importError u n).database =
      "❌ Database module not found (run enable-database first)") ∧
    (∀ (msg : String) (u n : Bool), (test_database (.otherError msg) u n).database =
      "❌ Error: " ++ msg.take 50) ∧
    (∀ u n : Bool, (test_database (.imported none) u n).database =
      "⚠️  Available but not initialized") ∧
    (∀ (db : Db) (msg : String) (u n : Bool), db.collections = .error msg →
      (test_database (.imported (some db)) u n).database =
          "⚠️  Connected but Error: " ++ msg.take 50 ∧
        (test_database (.imported (some db)) u n).connection_status = "Connected") ∧
    (∀ (db : Db) (cols : List String) (u n : Bool), db.collections = .ok cols →
      (test_database (.imported (some db)) u n).database = "✅ Connected & Working" ∧
        (test_database (.imported (some db)) u n).collections = cols.take 10) := by
  refine ⟨fun _ _ _ => rfl, fun _ _ => rfl, fun _ _ _ => rfl, fun _ _ => rfl, ?_, ?_⟩
  · intro db msg u n hc
    constructor <;> simp [test_database, hc]
  · intro db cols u n hc
    constructor <;> simp [test_database, hc]

/-- C9 witness: a handle whose metadata call raises `"boom"` still yields a
success body reporting a connected handle and the rendered error. -/
theorem diagnostics_never_fails_witness :
    (test_database (.imported (some ⟨none, .error "boom"⟩)) false false).database =
        "⚠️  Connected but Error: " ++ "boom".take 50 ∧
      (test_database (.imported (some ⟨none, .error "boom"⟩)) false false).connection_status =
        "Connected" :=
  diagnostics_never_fails.2.2.2.2.1 ⟨none, .error "boom"⟩ "boom" false false rfl

end Backend
